import Mathlib

/-!
Formal model of the tcap capability runtime (a Rust implementation of a
distributed capability protocol over UDP).  Every definition here is a
shallow embedding of a function of the source crate; the source file and
line ranges are cited next to each definition.  Machine integers are
modelled as `Nat` with explicit `% 2^w` where wrap-around matters; fallible
or panicking code returns `Option` / explicit outcome types.
-/

namespace TcapRs

/-! ## Byte-level helpers

The wire format is packed and little-endian (packet_types.rs, `repr(C, packed)`
structs marshalled with `bytemuck`/`transmute`).  A datagram is a `List Nat`
of bytes; `% 256` reflects the `u8` element type. -/

def byteAt (d : List Nat) (i : Nat) : Nat := d.getD i 0 % 256

/-- Little-endian `u32` read at byte offset `off`. -/
def leU32 (d : List Nat) (off : Nat) : Nat :=
  byteAt d off + 256 * byteAt d (off + 1) + 65536 * byteAt d (off + 2) +
    16777216 * byteAt d (off + 3)

/-- Little-endian `u64` read at byte offset `off`. -/
def leU64 (d : List Nat) (off : Nat) : Nat :=
  leU32 d off + 4294967296 * leU32 d (off + 4)

def U32_MOD : Nat := 2 ^ 32
def U64_MOD : Nat := 2 ^ 64

/-! ## IpAddress (src/packet_types.rs lines 11-107)

`IpAddress { address: [u8;4], netmask: [u8;4], port: u16 }`.  Parsing
(`impl From<&str> for IpAddress`, lines 25-64) splits at `':'` (the port),
and feeds the remainder to `cidr::Ipv4Cidr::from_str`.  All `unwrap`/
`assert!` panics are modelled as `none`. -/

structure IpAddress where
  address : List Nat
  netmask : List Nat
  port : Nat
  deriving Repr, DecidableEq

/-- Split a character list at every occurrence of `c` (the semantics of
Rust `str::split`). -/
def splitOnChar (c : Char) : List Char → List (List Char)
  | [] => [[]]
  | x :: xs =>
    let r := splitOnChar c xs
    if x = c then [] :: r
    else
      match r with
      | [] => [[x]]
      | y :: ys => (x :: y) :: ys

/-- Nonempty all-digit string to its value (`Err` as `none`). -/
def parseDigits (s : List Char) : Option Nat :=
  if s ≠ [] ∧ s.all Char.isDigit then
    some (s.foldl (fun acc c => 10 * acc + (c.toNat - 48)) 0)
  else none

/-- Rust `str::parse::<u16>`: optional leading `'+'`, digits, value ≤ 65535. -/
def parseU16 (s : List Char) : Option Nat :=
  let s2 := match s with
            | '+' :: rest => rest
            | other => other
  match parseDigits s2 with
  | some v => if v ≤ 65535 then some v else none
  | none => none

/-- One dotted-quad octet, per Rust `Ipv4Addr: FromStr`: 1-3 digits, no
leading zero unless the octet is exactly "0", value ≤ 255. -/
def parseOctet (s : List Char) : Option Nat :=
  match parseDigits s with
  | none => none
  | some v =>
    if s.length ≤ 3 ∧ (s.length = 1 ∨ s.headD ' ' ≠ '0') ∧ v ≤ 255 then some v
    else none

/-- `a.b.c.d` to its four octets. -/
def parseIpv4Quad (s : List Char) : Option (List Nat) :=
  match splitOnChar '.' s with
  | [a, b, c, d] =>
    match parseOctet a, parseOctet b, parseOctet c, parseOctet d with
    | some x, some y, some z, some w => some [x, y, z, w]
    | _, _, _, _ => none
  | _ => none

/-- Network length (`/k` suffix): parsed as a `u8`, then required ≤ 32. -/
def parseNetLength (s : List Char) : Option Nat :=
  let s2 := match s with
            | '+' :: rest => rest
            | other => other
  match parseDigits s2 with
  | some v => if v ≤ 255 ∧ v ≤ 32 then some v else none
  | none => none

/-- Octet `i` of the netmask of a `/k` network (the top `k` bits set). -/
def maskOctet (bits : Nat) : Nat := 256 - 2 ^ (8 - min bits 8)

def maskOfLen (k : Nat) : List Nat :=
  [maskOctet k, maskOctet (k - 8), maskOctet (k - 16), maskOctet (k - 24)]

/-- The strict host-bits-zero requirement of `cidr::Ipv4Cidr`: an address
with any bit set outside the netmask fails to parse. -/
def hostBitsZeroB (addr mask : List Nat) : Bool :=
  (addr.zip mask).all fun p => p.1 &&& (255 - p.2) = 0

/-- `cidr::Ipv4Cidr::from_str` (the external crate the parser calls):
yields `(first_address, mask)`.  Without a `/k` suffix the network is the
single host (mask 255.255.255.255); with one, the host bits must be zero
and `first_address` equals the written address. -/
def parseCidr (s : List Char) : Option (List Nat × List Nat) :=
  match splitOnChar '/' s with
  | [a] => (parseIpv4Quad a).map fun ad => (ad, [255, 255, 255, 255])
  | [a, l] =>
    match parseIpv4Quad a, parseNetLength l with
    | some ad, some len =>
      if hostBitsZeroB ad (maskOfLen len) then some (ad, maskOfLen len)
      else none
    | _, _ => none
  | _ => none

/-- `impl From<&str> for IpAddress` (packet_types.rs lines 25-64).  If the
string contains `':'` it must split into exactly two parts (otherwise the
`assert!` panics); the port is parsed from the second part and the first
part goes to the cidr parser.  Without `':'` the port is 0. -/
def parseIpAddress (s : List Char) : Option IpAddress :=
  if s.contains ':' then
    match splitOnChar ':' s with
    | [a, p] =>
      match parseU16 p, parseCidr a with
      | some port, some am => some ⟨am.1, am.2, port⟩
      | _, _ => none
    | _ => none
  else
    match parseCidr s with
    | some am => some ⟨am.1, am.2, 0⟩
    | none => none

def parseIpAddressS (s : String) : Option IpAddress := parseIpAddress s.data

/-- `impl From<IpAddress> for String` (packet_types.rs lines 100-107):
`"{a}.{b}.{c}.{d}:{port}"`. -/
def formatIp (ip : IpAddress) : String :=
  toString (ip.address.getD 0 0) ++ "." ++ toString (ip.address.getD 1 0) ++ "." ++
  toString (ip.address.getD 2 0) ++ "." ++ toString (ip.address.getD 3 0) ++ ":" ++
  toString ip.port

/-! ## Opcodes (src/packet_types.rs lines 109-175) -/

inductive CmdType
  | Nop | CapGetInfo | CapIsSame | CapDiminish | CapClose | CapRevoke
  | CapInvalid | MemoryCopy | MemoryCopyResponse | RequestCreate
  | RequestInvoke | RequestReceive | RequestResponse | None | InsertCap
  | ControllerResetSwitch | ControllerStop | ControllerStartTimer
  | ControllerStopTimer
  deriving Repr, DecidableEq

/-- `impl From<u32> for CmdType` (packet_types.rs lines 149-175): total,
every unknown value maps to `CmdType::None`. -/
def CmdType.ofU32 (value : Nat) : CmdType :=
  match value with
  | 0 => .Nop
  | 1 => .CapGetInfo
  | 2 => .CapIsSame
  | 3 => .CapDiminish
  | 5 => .CapClose
  | 6 => .CapRevoke
  | 7 => .CapInvalid
  | 10 => .MemoryCopy
  | 11 => .MemoryCopyResponse
  | 13 => .RequestCreate
  | 14 => .RequestInvoke
  | 16 => .RequestReceive
  | 17 => .RequestResponse
  | 32 => .None
  | 64 => .InsertCap
  | 128 => .ControllerResetSwitch
  | 129 => .ControllerStop
  | 130 => .ControllerStartTimer
  | 131 => .ControllerStopTimer
  | _ => .None

/-- The `CmdType` discriminant values (`cmd` field written by the encoders). -/
def CmdType.toU32 : CmdType → Nat
  | .Nop => 0
  | .CapGetInfo => 1
  | .CapIsSame => 2
  | .CapDiminish => 3
  | .CapClose => 5
  | .CapRevoke => 6
  | .CapInvalid => 7
  | .MemoryCopy => 10
  | .MemoryCopyResponse => 11
  | .RequestCreate => 13
  | .RequestInvoke => 14
  | .RequestReceive => 16
  | .RequestResponse => 17
  | .None => 32
  | .InsertCap => 64
  | .ControllerResetSwitch => 128
  | .ControllerStop => 129
  | .ControllerStartTimer => 130
  | .ControllerStopTimer => 131

/-! ## Capability model (src/capabilities.rs)

`CapType` (lines 15-44); `Capability` (lines 46-55).  The bound request
object is modelled by `has_request_object` plus the handler function it
would run: `RequestObject::invoke` on a local object calls the stored
closure with the resolved continuation vector (object.rs lines 45-58); the
model passes the resolved continuation capability ids. -/

inductive CapType
  | None | Request | Memory
  deriving Repr, DecidableEq

inductive HandlerResult
  | ok | err
  deriving Repr, DecidableEq

/-- Byte buffers (`Vec<u8>` / `[u8; 1024]`) as a length plus a contents
function; the index-wise representation keeps concrete evaluation shallow. -/
structure ByteSeq where
  len : Nat
  byte : Nat → Nat

def ByteSeq.append (a b : ByteSeq) : ByteSeq :=
  ⟨a.len + b.len, fun i => if i < a.len then a.byte i else b.byte (i - a.len)⟩

/-- `&v[start..start+n]` clipped at the end of the buffer. -/
def ByteSeq.slice (a : ByteSeq) (start n : Nat) : ByteSeq :=
  ⟨min n (a.len - start), fun i => a.byte (start + i)⟩

/-- `&v[..n]` for `n ≤ len`. -/
def ByteSeq.take (a : ByteSeq) (n : Nat) : ByteSeq :=
  ⟨min n a.len, a.byte⟩

/-- The buffer written into a fixed-width `n`-byte array, zero padded. -/
def ByteSeq.padTo (a : ByteSeq) (n : Nat) : ByteSeq :=
  ⟨n, fun i => if i < a.len then a.byte i else 0⟩

structure MemoryCopyRespPacket where
  stream_id : Nat
  size : Nat
  buf_size : Nat
  sequence : Nat
  buffer : ByteSeq

structure MemoryObject where
  is_local : Bool
  size : Nat
  data : ByteSeq

structure Capability where
  cap_id : Nat
  cap_type : CapType
  owner_address : IpAddress
  delegatees : List IpAddress
  has_request_object : Bool
  handler : List (Option Nat) → HandlerResult
  memory_object : Option MemoryObject

/-- `Capability::bind_req` (capabilities.rs lines 125-135): attaches the
request object and sets `cap_type = Request`. -/
def Capability.bind_req (c : Capability) (h : List (Option Nat) → HandlerResult) :
    Capability :=
  { c with cap_type := .Request, has_request_object := true, handler := h }

/-- `Capability::bind_mem` (capabilities.rs lines 137-147). -/
def Capability.bind_mem (c : Capability) (o : MemoryObject) : Capability :=
  { c with cap_type := .Memory, memory_object := some o }

/-- The delegatee bookkeeping of `Capability::delegate` (capabilities.rs
line 153): push onto the `delegatees` vector. -/
def Capability.push_delegatee (c : Capability) (d : IpAddress) : Capability :=
  { c with delegatees := c.delegatees ++ [d] }

/-- `Capability::run` (capabilities.rs lines 268-279): invoke the bound
request object, `Err(())` when no object is bound. -/
def Capability.run (c : Capability) (conts : List (Option Nat)) : HandlerResult :=
  if c.has_request_object then c.handler conts else .err

/-! ## Packets emitted by the unsolicited parser (src/service.rs) -/

inductive Packet
  | CapInvalid (cap_id : Nat) (stream_id : Nat)
  | RequestResponse (cap_id : Nat) (stream_id : Nat) (response_code : Nat)
  | RevokeCap (cap_id : Nat) (owner : IpAddress)
  deriving Repr, DecidableEq

/-- One entry of the Service send queue: destination string plus packet. -/
structure Sent where
  dest : String
  packet : Packet
  deriving Repr, DecidableEq

/-- Result of running one arm of `Service::parse`: either the arm finishes
normally, or it panics (`unwrap`/`expect`/`todo!`).  `sent` records the
`SendRequest`s enqueued before the end (or before the panic) and
`handler_runs` how many times a bound request handler was invoked. -/
inductive ParseOutcome
  | ok (sent : List Sent) (handler_runs : Nat)
  | panicked (sent : List Sent) (handler_runs : Nat)
  deriving Repr, DecidableEq

def ParseOutcome.sentPackets : ParseOutcome → List Sent
  | .ok s _ => s
  | .panicked s _ => s

/-! ## The RequestInvoke arm of `Service::parse` (service.rs lines 324-391)

The capability table is passed as its lookup function (the code uses
`cap_table.contains` / `cap_table.get`, and `contains_key` agrees with
`get` on a `HashMap`).  The `source` argument is the sender address string
(`sender.to_string()`), which the arm uses as the reply destination. -/

structure RequestInvokeHdr where
  stream_id : Nat
  cap_id : Nat
  number_of_conts : Nat
  cont_ids : List Nat
  flags : Nat
  deriving Repr, DecidableEq

/-- Continuation resolution (service.rs lines 342-356): for
`i in 0..number_of_conts.min(4)`, a zero id maps to `None`, a non-zero id
to the table entry (`None` with an error log when absent).  The model
records each resolved capability by its id. -/
def resolveConts (lookup : Nat → Option Capability) (number_of_conts : Nat)
    (cont_ids : List Nat) : List (Option Nat) :=
  (List.range (min number_of_conts 4)).map fun i =>
    match cont_ids.getD i 0 with
    | 0 => none
    | s =>
      match lookup s with
      | some c => some c.cap_id
      | none => none

/-- `Flags::from_bits` on the wire byte succeeds iff no bit outside
`REQUIRE_RESPONSE` (bit 0) is set; on failure the `.expect` panics
(service.rs lines 365-367). -/
def flagsValid (flags : Nat) : Bool := flags % 256 &&& 254 = 0

def requireResponseSet (flags : Nat) : Bool := flags % 256 &&& 1 = 1

/-- The `CmdType::RequestInvoke` arm (service.rs lines 324-391).  Unknown
capability: enqueue a `CapInvalid` back to the source and return.  Known
capability: resolve continuations, run the bound handler, then check the
flags byte (`expect` panics on unknown bits); without `REQUIRE_RESPONSE`
nothing is sent, with it a `RequestResponse` with the request stream id and
code 0 (`Ok`) or 100 (`Err`) goes back to the source. -/
def parseRequestInvoke (lookup : Nat → Option Capability) (source : String)
    (hdr : RequestInvokeHdr) : ParseOutcome :=
  match lookup hdr.cap_id with
  | none => .ok [⟨source, .CapInvalid hdr.cap_id hdr.stream_id⟩] 0
  | some cap =>
    let conts := resolveConts lookup hdr.number_of_conts hdr.cont_ids
    let result := cap.run conts
    if !flagsValid hdr.flags then .panicked [] 1
    else if !requireResponseSet hdr.flags then .ok [] 1
    else
      let code : Nat := match result with
                        | .ok => 0
                        | .err => 100
      .ok [⟨source, .RequestResponse cap.cap_id hdr.stream_id code⟩] 1

/-- Caller-side response check of
`Capability::request_invoke_with_continuation_wait_param` with `wait=true`
(capabilities.rs lines 250-264): read bytes 12..16 of the correlated
response as the opcode; anything other than `RequestResponse` is `Err(())`;
otherwise decode `RequestResponseHeader` (panics unless the datagram is
exactly 40 bytes) and fail on a non-zero `response_code`.  `none` models a
panic. -/
def checkInvokeResponse (data : List Nat) : Option (Except Unit Unit) :=
  if data.length < 16 then none
  else if CmdType.ofU32 (leU32 data 12) ≠ CmdType.RequestResponse then
    some (Except.error ())
  else if data.length ≠ 40 then none
  else if leU64 data 32 ≠ 0 then some (Except.error ())
  else some (Except.ok ())

/-! ## The CapRevoke arm of `Service::parse` (service.rs lines 318-322) -/

structure RevokeCapHdr where
  cap_id : Nat
  cap_owner : IpAddress
  deriving Repr, DecidableEq

inductive CapRevokeOutcome
  | panicked
  | ok (sent : List Sent) (removed_id : Nat)
  deriving Repr, DecidableEq

/-- `Capability::revoke` (capabilities.rs lines 175-197): enqueue a
`RevokeCap{cap_id, owner = own service address}` to every recorded
delegatee (destination string via `IpAddress -> String`), then remove the
capability id from the local table.  Returned as (sent packets, removed id). -/
def Capability.revoke (selfAddress : IpAddress) (c : Capability) :
    List Sent × Nat :=
  (c.delegatees.map fun d => ⟨formatIp d, Packet.RevokeCap c.cap_id selfAddress⟩,
   c.cap_id)

/-- The `CmdType::CapRevoke` arm (service.rs lines 318-322):
`cap_table.get(hdr.cap_id).await.unwrap()` — the `unwrap` panics when the
id is absent; otherwise the owner-side revoke runs. -/
def parseCapRevoke (lookup : Nat → Option Capability) (selfAddress : IpAddress)
    (hdr : RevokeCapHdr) : CapRevokeOutcome :=
  match lookup hdr.cap_id with
  | none => .panicked
  | some cap =>
    let r := Capability.revoke selfAddress cap
    .ok r.1 r.2

/-! ## Opcode dispatch skeleton of `Service::parse` (service.rs lines 303-459)

Which behaviour each `cmd` value reaches: the arms for `Nop`, `CapGetInfo`,
`CapIsSame`, `CapDiminish`, `CapClose`, `RequestCreate`, `RequestReceive`
and `None` are `todo!()` (panic); `CapInvalid` only logs; the wildcard arm
(reached by the controller opcodes only) logs a warning; the rest have real
handlers. -/

inductive ArmBehavior
  | todoPanic
  | logOnly
  | handled
  deriving Repr, DecidableEq

def parseArm (cmd : Nat) : ArmBehavior :=
  match CmdType.ofU32 cmd with
  | .Nop => .todoPanic
  | .CapGetInfo => .todoPanic
  | .CapIsSame => .todoPanic
  | .CapDiminish => .todoPanic
  | .CapClose => .todoPanic
  | .RequestCreate => .todoPanic
  | .RequestReceive => .todoPanic
  | .None => .todoPanic
  | .CapInvalid => .logOnly
  | .ControllerResetSwitch => .logOnly
  | .ControllerStop => .logOnly
  | .ControllerStartTimer => .logOnly
  | .ControllerStopTimer => .logOnly
  | .CapRevoke => .handled
  | .RequestInvoke => .handled
  | .InsertCap => .handled
  | .RequestResponse => .handled
  | .MemoryCopy => .handled
  | .MemoryCopyResponse => .handled

/-! ## Sender task (service.rs lines 178-199)

For each dequeued `SendRequest` the task installs the stream notifier and
calls `socket.send_to`; `Ok` logs and continues the loop, `Err` hits
`panic!("failed to send network packet ...")` (line 191). -/

inductive SendToResult
  | ok (bytes : Nat)
  | err
  deriving Repr, DecidableEq

inductive SenderOutcome
  | continued
  | panicked
  deriving Repr, DecidableEq

def senderStep : SendToResult → SenderOutcome
  | .ok _ => .continued
  | .err => .panicked

/-! ## Capability table (src/cap_table.rs lines 10-48)

`cap_table.rs` locally declares `type CapID = u64` and keys its `HashMap`
with it, although capability ids are `u128` (`pub type CapID = u128`,
capabilities.rs line 23).  Storing and looking up a 128-bit id through a
64-bit key denotes truncation to the low 64 bits, made explicit here as
`% 2^64`.  Handles (`Arc<Mutex<Capability>>`) are modelled as opaque
tokens. -/

def CapTable := Nat → Option Nat

def CapTable.empty : CapTable := fun _ => none

/-- `CapTable::insert` (cap_table.rs lines 24-28): keyed by the capability
id of the handle. -/
def CapTable.insert (t : CapTable) (cap_id handle : Nat) : CapTable :=
  fun k => if k = cap_id % U64_MOD then some handle else t k

/-- `CapTable::remove` (cap_table.rs lines 30-33). -/
def CapTable.remove (t : CapTable) (cap_id : Nat) : CapTable :=
  fun k => if k = cap_id % U64_MOD then none else t k

/-- `CapTable::get` (cap_table.rs lines 43-48). -/
def CapTable.get (t : CapTable) (cap_id : Nat) : Option Nat :=
  t (cap_id % U64_MOD)

/-- `CapTable::contains` (cap_table.rs lines 39-41). -/
def CapTable.contains (t : CapTable) (cap_id : Nat) : Bool :=
  (t (cap_id % U64_MOD)).isSome

/-! ## CommonHeader and SendRequest (packet_types.rs lines 177-184,
service.rs lines 40-63)

`CommonHeader { size: u64, stream_id: u32, cmd: u32, cap_id: u128 }`,
`repr(C, packed)`: 32 bytes, all fields little-endian.  `From<Vec<u8>>`
realizes `bytemuck::from_bytes` on that packed layout. -/

structure CommonHeaderM where
  size : Nat
  stream_id : Nat
  cmd : Nat
  cap_id : Nat
  deriving Repr, DecidableEq

def CommonHeader.decode (d : List Nat) : CommonHeaderM :=
  ⟨leU64 d 0, leU32 d 8, leU32 d 12, leU64 d 16 + U64_MOD * leU64 d 24⟩

structure SendRequestM where
  dest : String
  data : List Nat
  stream_id : Nat
  deriving Repr, DecidableEq

/-- `SendRequest::new` (service.rs lines 48-63): `assert!` that the buffer
holds at least the 32-byte common header (panic — `none` — otherwise), then
take the `stream_id` of the `CommonHeader` decoded from bytes 0..32. -/
def SendRequest.new (dest : String) (data : List Nat) : Option SendRequestM :=
  if data.length < 32 then none
  else some ⟨dest, data, (CommonHeader.decode (data.take 32)).stream_id⟩

/-! ## Memory copy (src/object.rs, src/capabilities.rs lines 281-344)

The caller-side chunk reassembly of `Capability::get_buffer`.  The
receive loop stores every `MemoryCopyResponse` under the response key
`stream_id + sequence` (u32 arithmetic; service.rs lines 235-243 and
446-453). -/

def CHUNK_SIZE : Nat := 1024

def numChunksOf (len : Nat) : Nat := (len + CHUNK_SIZE - 1) / CHUNK_SIZE

/-- Modelled from the spec: the owner-side
`MemoryCopyResponseHeader::construct(obj, cap_id, stream_id)` that
service.rs line 436 calls is absent from src/packet_types.rs (the file
holds an older single-packet variant without the `buf_size` and `sequence`
fields that capabilities.rs and service.rs read).  Per spec §4.3.2/§4.1 it
chunks the buffer into packets of ≤ 1024 bytes with ascending `sequence`
starting at 1; `buffer_size` carries the total length, `size` this chunk's
length, and each packet carries the request's stream id.  The fixed-width
1024-byte `buffer` field is zero-padded. -/
def memCopyChunks (stream_id : Nat) (data : ByteSeq) :
    List MemoryCopyRespPacket :=
  (List.range (numChunksOf data.len)).map fun i =>
    let c := data.slice (CHUNK_SIZE * i) CHUNK_SIZE
    ⟨stream_id, c.len, data.len, i + 1, c.padTo CHUNK_SIZE⟩

/-- Response-buffer key of a memory-copy response (service.rs line 238:
`stream_id + hdr.sequence` in u32 arithmetic). -/
def respKey (p : MemoryCopyRespPacket) : Nat :=
  (p.stream_id + p.sequence) % U32_MOD

/-- The `responses` map after the receive loop stored the given packets in
arrival order (later arrivals overwrite equal keys, as `HashMap::insert`
does). -/
def buildResponses (arrivals : List MemoryCopyRespPacket) :
    Nat → Option MemoryCopyRespPacket :=
  arrivals.foldl (fun m p => fun k => if k = respKey p then some p else m k)
    (fun _ => none)

/-- `impl From<MemoryCopyResponseHeader> for MemoryObject` (object.rs lines
68-77): `size` is the chunk's `size`, but `data` is the full fixed-width
1024-byte `buffer` array. -/
def MemoryObject.ofResponse (p : MemoryCopyRespPacket) : MemoryObject :=
  ⟨true, p.size, p.buffer⟩

/-- `MemoryObject::append` (object.rs lines 114-119): extend with
`buffer[..size]` and add `size`. -/
def MemoryObject.append (o : MemoryObject) (p : MemoryCopyRespPacket) :
    MemoryObject :=
  ⟨o.is_local, o.size + p.size, o.data.append (p.buffer.take p.size)⟩

/-- The drain loop of `Capability::get_buffer` (capabilities.rs lines
328-337): while the assembled size is below `buf_size`, bump `sequence` and
append the response at key `sid + sequence` when present (missing keys are
only logged and the loop retries the next sequence).  The Rust loop spins
forever once the needed responses never appear; `fuel` makes that explicit
(`none` = non-termination). -/
def getBufferLoop (responses : Nat → Option MemoryCopyRespPacket)
    (buf_size sid : Nat) : Nat → Nat → MemoryObject → Option MemoryObject
  | 0, _, _ => none
  | fuel + 1, sequence, obj =>
    if obj.size < buf_size then
      match responses ((sid + (sequence + 1)) % U32_MOD) with
      | some p =>
        getBufferLoop responses buf_size sid fuel (sequence + 1) (obj.append p)
      | none => getBufferLoop responses buf_size sid fuel (sequence + 1) obj
    else some obj

/-- The remote path of `Capability::get_buffer` (capabilities.rs lines
292-343): wait for the response at key `stream_id + 1`, read it *without
deleting it* (`get_response_no_delete`, line 311), seed the `MemoryObject`
from it, subtract the packet's `sequence` from the stream id (u32
arithmetic, line 322), then drain the remaining chunks.  The semaphore
acquisitions (lines 303-319) only gate progress and do not change the
result value.  `none` models the wait loop spinning forever. -/
def getBufferRemote (fuel : Nat) (stream_id : Nat)
    (responses : Nat → Option MemoryCopyRespPacket) : Option MemoryObject :=
  match responses ((stream_id + 1) % U32_MOD) with
  | none => none
  | some first =>
    let obj := MemoryObject.ofResponse first
    let sid := (stream_id + U32_MOD - first.sequence % U32_MOD) % U32_MOD
    getBufferLoop responses first.buf_size sid fuel 1 obj

/-! ## `request_invoke` packet construction (capabilities.rs lines 231-249,
packet_types.rs lines 240-259) -/

/-- The continuation-slot array: `let mut cont_ids: [CapID; 4] = [0; 4];
for i in 0..4.min(continuations.len()) { cont_ids[i] = continuations[i] }`
(capabilities.rs lines 234-237). -/
def contSlot (continuations : List Nat) (i : Nat) : Nat :=
  if i < min 4 continuations.length then continuations.getD i 0 else 0

def contCapIdsArray (continuations : List Nat) : List Nat :=
  [contSlot continuations 0, contSlot continuations 1,
   contSlot continuations 2, contSlot continuations 3]

/-- `Flags::empty(); flags.set(REQUIRE_RESPONSE, wait)` (capabilities.rs
lines 240-241). -/
def flagsOfWait (wait : Bool) : Nat := if wait then 1 else 0

structure RequestInvokePacket where
  size : Nat
  stream_id : Nat
  cmd : Nat
  cap_id : Nat
  number_of_conts : Nat
  cont_ids : List Nat
  flags : Nat
  deriving Repr, DecidableEq

/-- `RequestInvokeHeader::construct` (packet_types.rs lines 240-259):
`size` is the packed header size (32 + 1 + 4·16 + 1 = 98 bytes), `cmd` is
`CmdType::RequestInvoke`, `cap_id` the capability's id; the fresh random
`stream_id` is a parameter of the model. -/
def RequestInvokeHeader.construct (cap : Capability) (number_of_conts : Nat)
    (cont_ids : List Nat) (flags : Nat) (stream_id : Nat) :
    RequestInvokePacket :=
  ⟨98, stream_id, CmdType.toU32 .RequestInvoke, cap.cap_id, number_of_conts,
   cont_ids, flags⟩

/-- `Capability::request_invoke_with_continuation_wait_param` up to the
`send` call (capabilities.rs lines 231-249): build the continuation array
and flags, construct the header, and address the `SendRequest` to
`self.owner_address` rendered as a string. -/
def request_invoke_build (cap : Capability) (continuations : List Nat)
    (wait : Bool) (stream_id : Nat) : String × RequestInvokePacket :=
  (formatIp cap.owner_address,
   RequestInvokeHeader.construct cap (continuations.length % 256)
     (contCapIdsArray continuations) (flagsOfWait wait) stream_id)

/-! ## Concrete inputs used by witnesses and counterexamples -/

def addrA : IpAddress := ⟨[10, 0, 0, 9], [255, 255, 255, 255], 1331⟩
def addrB : IpAddress := ⟨[10, 0, 0, 9], [255, 255, 255, 255], 1330⟩

/-- A local request capability with id 5 whose handler succeeds. -/
def capC2 : Capability :=
  ⟨5, .Request, addrA, [], true, fun _ => .ok, none⟩

def lookupC2 (id : Nat) : Option Capability :=
  if id = 5 then some capC2 else none

/-- RequestInvoke header: cap 5, stream 77, flags byte 1 (REQUIRE_RESPONSE). -/
def hdrC2w : RequestInvokeHdr := ⟨77, 5, 0, [0, 0, 0, 0], 1⟩

/-- RequestInvoke header with flags byte 3: bit 0 set plus an unknown bit. -/
def hdrC2c : RequestInvokeHdr := ⟨77, 5, 0, [0, 0, 0, 0], 3⟩

/-- A capability with one recorded delegatee, for the revoke path. -/
def capC3 : Capability :=
  ⟨5, .Request, addrA, [addrB], true, fun _ => .ok, none⟩

def lookupC3 (id : Nat) : Option Capability :=
  if id = 5 then some capC3 else none

def hdrC3 : RevokeCapHdr := ⟨5, addrA⟩

def hdrC4 : RequestInvokeHdr := ⟨7, 42, 0, [0, 0, 0, 0], 1⟩

/-- 16 bytes whose cmd field (offset 12, little-endian) is 7 = CapInvalid. -/
def dataC4 : List Nat := List.replicate 12 0 ++ [7, 0, 0, 0]

/-- The spec's scenario S6 owner buffer: 3000 bytes, three chunks (byte 7
in the first chunk, 9 in the second, 5 in the third). -/
def ownerBufC1 : ByteSeq :=
  ⟨3000, fun i => if i < 1024 then 7 else if i < 2048 then 9 else 5⟩

/-- Two inserts whose 128-bit ids agree on the low 64 bits. -/
def tableC7 : CapTable :=
  (CapTable.empty.insert 1 10).insert (1 + U64_MOD) 20

def capC9 : Capability :=
  ⟨6, .Request, addrB, [], true, fun _ => .ok, none⟩

/-- 32 bytes whose stream_id field (offset 8, little-endian) is
0x12345678 = 305419896. -/
def c10Bytes : List Nat :=
  List.replicate 8 0 ++ [120, 86, 52, 18] ++ List.replicate 20 0

/-! ## Shared helper lemmas -/

theorem contCapIdsArray_getD (conts : List Nat) (i : Nat) :
    (contCapIdsArray conts).getD i 0 = contSlot conts i := by
  match i with
  | 0 => rfl
  | 1 => rfl
  | 2 => rfl
  | 3 => rfl
  | n + 4 =>
    have h1 : (contCapIdsArray conts).getD (n + 4) 0 = 0 := by
      simp [contCapIdsArray, List.getD]
    have h2 : contSlot conts (n + 4) = 0 := by
      simp only [contSlot, ite_eq_right_iff]
      omega
    rw [h1, h2]

theorem byteAt_take (d : List Nat) (n i : Nat) (h : i < n) :
    byteAt (d.take n) i = byteAt d i := by
  simp [byteAt, List.getD_eq_getElem?_getD, List.getElem?_take_of_lt h]

theorem leU32_take32_at8 (d : List Nat) : leU32 (d.take 32) 8 = leU32 d 8 := by
  unfold leU32
  rw [byteAt_take d 32 8 (by omega), byteAt_take d 32 9 (by omega),
    byteAt_take d 32 10 (by omega), byteAt_take d 32 11 (by omega)]

/-! ## Claim theorems -/

/-- C1: the claim says `get_buffer` on a remote memory capability returns a
memory object byte-equal to the owner's buffer with length `buffer_size`,
for every chunk arrival order.  Evaluating the embedded `get_buffer`
reassembly on the spec's own S6 input (a 3000-byte owner buffer, three
chunks) refutes it: because the first chunk is read with
`get_response_no_delete` and the stream id is then lowered by its
`sequence`, the drain loop's first iteration re-reads the first chunk, so
the assembled object has size 3072 ≠ 3000 and its bytes duplicate chunk 1
while dropping the last chunk.  The responses map is the same for every
arrival order (distinct keys), so no order yields the owner's bytes. -/
theorem c1_get_buffer_wrong_bytes :
    ownerBufC1.len = 3000
  ∧ (getBufferRemote 10 100 (buildResponses (memCopyChunks 100 ownerBufC1))).map
      MemoryObject.size = some 3072
  ∧ (getBufferRemote 10 100
      (buildResponses ((memCopyChunks 100 ownerBufC1).reverse))).map
      MemoryObject.size = some 3072
  ∧ (getBufferRemote 10 100 (memCopyChunks 100 ownerBufC1 |> buildResponses)).map
      (fun o => o.data.len) = some 3072
  ∧ (getBufferRemote 10 100 (memCopyChunks 100 ownerBufC1 |> buildResponses)).map
      (fun o => o.data.byte 1024) = some 7
  ∧ ownerBufC1.byte 1024 = 9 := by
  exact ⟨rfl, by decide, by decide, by decide, by decide, by decide⟩

/-- C2 (amended): for a received RequestInvoke whose cap_id is present and
whose flags byte sets no bit other than REQUIRE_RESPONSE (bit 0): with the
bit set the node enqueues exactly one RequestResponse to the source with
the request's stream_id and response_code 0 on handler success / 100 on
handler error; with the bit clear nothing is sent.  (A flags byte with any
other bit set makes `Flags::from_bits(..).expect(..)` panic after the
handler already ran, so no response is sent — see the counterexample.) -/
theorem c2_request_invoke_response (lookup : Nat → Option Capability)
    (source : String) (hdr : RequestInvokeHdr) (cap : Capability)
    (hcap : lookup hdr.cap_id = some cap)
    (hflags : flagsValid hdr.flags = true) :
    (requireResponseSet hdr.flags = true →
      parseRequestInvoke lookup source hdr =
        .ok [⟨source, .RequestResponse cap.cap_id hdr.stream_id
          (if cap.run (resolveConts lookup hdr.number_of_conts hdr.cont_ids) =
              HandlerResult.ok then 0 else 100)⟩] 1)
  ∧ (requireResponseSet hdr.flags = false →
      parseRequestInvoke lookup source hdr = .ok [] 1) := by
  unfold parseRequestInvoke
  rw [hcap]
  constructor
  · intro hreq
    simp only [hflags, hreq, Bool.not_true, Bool.false_eq_true, if_false, if_true]
    cases hres : cap.run (resolveConts lookup hdr.number_of_conts hdr.cont_ids) <;>
      simp [hres]
  · intro hreq
    simp [hflags, hreq]

/-- C2 witness: concrete evaluation of the amended claim at flags byte 1. -/
theorem c2_witness :
    parseRequestInvoke lookupC2 "10.0.0.9:1330" hdrC2w =
      .ok [⟨"10.0.0.9:1330", .RequestResponse 5 77 0⟩] 1 := by
  have h :=
    (c2_request_invoke_response lookupC2 "10.0.0.9:1330" hdrC2w capC2 rfl rfl).1 rfl
  simpa [capC2, hdrC2w, Capability.run, resolveConts] using h

/-- C2 counterexample: a RequestInvoke for a present capability with flags
byte 3 (REQUIRE_RESPONSE set plus an unknown bit) sends nothing — the
parser panics at `Flags::from_bits(..).expect(..)` — although the claim as
stated demands exactly one RequestResponse whenever bit 0 is set. -/
theorem c2_counterexample :
    (lookupC2 hdrC2c.cap_id).isSome = true
  ∧ requireResponseSet hdrC2c.flags = true
  ∧ parseRequestInvoke lookupC2 "10.0.0.9:1330" hdrC2c =
      ParseOutcome.panicked [] 1
  ∧ (parseRequestInvoke lookupC2 "10.0.0.9:1330" hdrC2c).sentPackets = [] :=
  ⟨rfl, rfl, rfl, rfl⟩

/-- C3: the claim says a CapRevoke whose cap_id is absent is logged and
dropped without panicking, the table unchanged.  The code instead calls
`cap_table.get(hdr.cap_id).await.unwrap()`, and the `unwrap` of `None`
panics: the embedded arm evaluates to `panicked` on an empty table.  The
present-case conjuncts confirm the claimed behaviour when the id is known:
a RevokeCap goes to each recorded delegatee and the id is removed. -/
theorem c3_cap_revoke_unknown_panics :
    parseCapRevoke (fun _ => none) addrA hdrC3 = CapRevokeOutcome.panicked
  ∧ parseCapRevoke lookupC3 addrA hdrC3 =
      CapRevokeOutcome.ok [⟨"10.0.0.9:1330", Packet.RevokeCap 5 addrA⟩] 5 := by
  constructor
  · rfl
  · decide

/-- C4: a received RequestInvoke whose cap_id is not in the table makes the
receiver enqueue exactly one CapInvalid back to the source without running
any handler; and on the caller side, the wait=true invoke path returns an
error whenever the correlated response's opcode (bytes 12..16) is not
RequestResponse. -/
theorem c4_unknown_cap_invalid (lookup : Nat → Option Capability)
    (source : String) (hdr : RequestInvokeHdr)
    (hcap : lookup hdr.cap_id = none) :
    parseRequestInvoke lookup source hdr =
      .ok [⟨source, .CapInvalid hdr.cap_id hdr.stream_id⟩] 0
  ∧ ∀ data : List Nat, 16 ≤ data.length →
      CmdType.ofU32 (leU32 data 12) ≠ CmdType.RequestResponse →
      checkInvokeResponse data = some (Except.error ()) := by
  constructor
  · unfold parseRequestInvoke
    rw [hcap]
  · intro data hlen hcmd
    unfold checkInvokeResponse
    rw [if_neg (by omega), if_pos hcmd]

/-- C4 witness: concrete evaluation — unknown cap 42 answered with
CapInvalid, and a CapInvalid response (opcode 7) surfaces as an error. -/
theorem c4_witness :
    parseRequestInvoke (fun _ => none) "10.0.0.9:1331" hdrC4 =
      .ok [⟨"10.0.0.9:1331", .CapInvalid 42 7⟩] 0
  ∧ checkInvokeResponse dataC4 = some (Except.error ()) := by
  have h := c4_unknown_cap_invalid (fun _ => none) "10.0.0.9:1331" hdrC4 rfl
  exact ⟨h.1, h.2 dataC4 (by decide) (by decide)⟩

/-- C5: the claim says a socket send failure is logged, the packet dropped,
and the sender task continues without panicking.  The sender task's match
on `socket.send_to` (service.rs lines 189-192) instead hits
`panic!("failed to send network packet ...")` on `Err`: the embedded step
evaluates to `panicked` on a send error (and continues on success). -/
theorem c5_sender_panics_on_send_failure :
    senderStep SendToResult.err = SenderOutcome.panicked
  ∧ senderStep (SendToResult.ok 98) = SenderOutcome.continued :=
  ⟨rfl, rfl⟩

/-- C6: opcode decoding is total (every unknown u32 maps to CmdType::None),
but the claim that the parser then logs and drops without panicking fails:
the `CmdType::None` arm of `Service::parse` is `todo!()`, which panics.
Evaluated at the undecoded value 4, at the explicit None opcode 32, and at
an arbitrary unknown value 1000. -/
theorem c6_unknown_opcode_todo_panics :
    CmdType.ofU32 4 = CmdType.None
  ∧ CmdType.ofU32 1000 = CmdType.None
  ∧ parseArm 4 = ArmBehavior.todoPanic
  ∧ parseArm 32 = ArmBehavior.todoPanic
  ∧ parseArm 1000 = ArmBehavior.todoPanic := by
  decide

/-- C7: the claim says the table is keyed by the full 128-bit id.  But
cap_table.rs declares its key type as `u64` (line 10) while capability ids
are `u128` (capabilities.rs line 23), so the table key only carries the low
64 bits: inserting handle 10 under id 1 and handle 20 under id 1 + 2^64
makes `get 1` return handle 20 — id 1 was inserted and never removed, yet
`get` no longer returns its handle.  The final conjunct confirms the other
half of the claim: no capability operation changes `cap_id` after
creation. -/
theorem c7_table_truncates_ids :
    CapTable.get tableC7 1 = some 20
  ∧ CapTable.get tableC7 1 ≠ some 10
  ∧ CapTable.contains tableC7 1 = true
  ∧ ∀ (c : Capability) (h : List (Option Nat) → HandlerResult)
      (o : MemoryObject) (d : IpAddress),
      (c.bind_req h).cap_id = c.cap_id ∧ (c.bind_mem o).cap_id = c.cap_id ∧
      (c.push_delegatee d).cap_id = c.cap_id := by
  refine ⟨by decide, by decide, by decide, fun c h o d => ⟨rfl, rfl, rfl⟩⟩

/-- C8: the claim says netmask-bearing strings parse to the stated mask
with port 0.  Evaluation refutes it: `"10.0.0.0/24:1012"` parses to port
1012 (the `':'` branch always takes the port from the suffix), and the
repository's own unit test input `"10.0.0.1/24:1012"` (expected: port 0,
mask 255.255.255.0) panics — the strict `Ipv4Cidr` parse rejects the
non-zero host bits, modelled as `none`.  The last two conjuncts confirm
the round-trip half of the claim at the repository's other test input:
`a.b.c.d:port` strings parse and format back identically. -/
theorem c8_netmask_port_mismatch :
    parseIpAddressS "10.0.0.0/24:1012" =
      some ⟨[10, 0, 0, 0], [255, 255, 255, 0], 1012⟩
  ∧ parseIpAddressS "10.0.0.1/24:1012" = none
  ∧ parseIpAddressS "10.0.0.1:1234" =
      some ⟨[10, 0, 0, 1], [255, 255, 255, 255], 1234⟩
  ∧ formatIp ⟨[10, 0, 0, 1], [255, 255, 255, 255], 1234⟩ = "10.0.0.1:1234" := by
  decide

/-- C9: for every continuation list and wait flag, the built RequestInvoke
packet has cmd 14, is addressed to the capability owner's formatted
address, has its REQUIRE_RESPONSE bit equal to `wait`, and its 4-slot
continuation array holds the first min(4, length) ids with every remaining
slot 0. -/
theorem c9_request_invoke_packet (cap : Capability) (continuations : List Nat)
    (wait : Bool) (stream_id : Nat) :
    (request_invoke_build cap continuations wait stream_id).2.cmd = 14
  ∧ (request_invoke_build cap continuations wait stream_id).1 =
      formatIp cap.owner_address
  ∧ (request_invoke_build cap continuations wait stream_id).2.cap_id = cap.cap_id
  ∧ requireResponseSet
      (request_invoke_build cap continuations wait stream_id).2.flags = wait
  ∧ (∀ i, i < min 4 continuations.length →
      (request_invoke_build cap continuations wait stream_id).2.cont_ids.getD i 0 =
        continuations.getD i 0)
  ∧ (∀ i, min 4 continuations.length ≤ i →
      (request_invoke_build cap continuations wait stream_id).2.cont_ids.getD i 0 =
        0) := by
  refine ⟨rfl, rfl, rfl, ?_, ?_, ?_⟩
  · have hfl : (request_invoke_build cap continuations wait stream_id).2.flags =
        flagsOfWait wait := rfl
    rw [hfl]
    cases wait <;> rfl
  · intro i hi
    show (contCapIdsArray continuations).getD i 0 = continuations.getD i 0
    rw [contCapIdsArray_getD]
    simp [contSlot, hi]
  · intro i hi
    show (contCapIdsArray continuations).getD i 0 = 0
    rw [contCapIdsArray_getD]
    simp only [contSlot, ite_eq_right_iff]
    omega

/-- C9 witness: concrete evaluation with two continuations and wait=true. -/
theorem c9_witness :
    (request_invoke_build capC9 [11, 22] true 500).2.cont_ids.getD 0 0 = 11
  ∧ (request_invoke_build capC9 [11, 22] true 500).2.cont_ids.getD 2 0 = 0
  ∧ (request_invoke_build capC9 [11, 22] true 500).2.cmd = 14 := by
  have h := c9_request_invoke_packet capC9 [11, 22] true 500
  exact ⟨h.2.2.2.2.1 0 (by decide), h.2.2.2.2.2 2 (by decide), h.1⟩

/-- C10: `SendRequest::new` panics exactly when the buffer is shorter than
the 32-byte common header; otherwise the stored stream_id is the
little-endian u32 at byte offsets 8..12, and the constructed request keeps
the full buffer, so every enqueued SendRequest carries at least a complete
CommonHeader. -/
theorem c10_send_request_header (dest : String) (data : List Nat) :
    (SendRequest.new dest data = none ↔ data.length < 32)
  ∧ ∀ r, SendRequest.new dest data = some r →
      r.stream_id = leU32 data 8 ∧ r.dest = dest ∧ r.data = data ∧
      32 ≤ r.data.length := by
  unfold SendRequest.new
  by_cases hl : data.length < 32
  · constructor
    · simp [hl]
    · intro r hr
      rw [if_pos hl] at hr
      exact absurd hr (by simp)
  · constructor
    · simp [hl]
    · intro r hr
      rw [if_neg hl] at hr
      obtain rfl : (⟨dest, data, (CommonHeader.decode (data.take 32)).stream_id⟩ :
          SendRequestM) = r := by
        injection hr
      exact ⟨leU32_take32_at8 data, rfl, rfl, by show 32 ≤ data.length; omega⟩

/-- C10 witness: concrete evaluation at a 32-byte buffer whose stream_id
bytes are 0x12345678. -/
theorem c10_witness :
    (SendRequest.new "10.0.0.1:80" c10Bytes = none ↔ c10Bytes.length < 32)
  ∧ SendRequestM.stream_id ⟨"10.0.0.1:80", c10Bytes, 305419896⟩ =
      leU32 c10Bytes 8 := by
  have h := c10_send_request_header "10.0.0.1:80" c10Bytes
  exact ⟨h.1, (h.2 ⟨"10.0.0.1:80", c10Bytes, 305419896⟩ (by decide)).1⟩

end TcapRs
